import Mathlib

/-!
Verification of the BASED DAO governance skill (scripts/vote.js and the
proposal-listing script check-proposals.js) against its specification.

The JavaScript sources are shallowly embedded: the `STATES` lookup table,
the proposal classifier (phase label + blocks remaining), JavaScript's
`parseInt` as used on the vote command's support argument, the vote
eligibility checker of scripts/vote.js `main`, and the proposal-listing
loop of check-proposals.js `main`. Chain integers (uint256 balances, block
numbers, uint8 state codes) are modelled as `Nat`; JavaScript's
`Number(endBlock) - currentBlock` subtraction, which can be negative, as
`Int`. Fallible paths (`process.exit(1)` after an error message) are
modelled with `Except`; a thrown-and-caught per-proposal fetch with
`Option`.
-/

namespace BasedDao

/-! ## String constants appearing in the sources -/

def pendingLabel : String := "Pending"

def activeLabel : String := "Active"

def canceledLabel : String := "Canceled"

def defeatedLabel : String := "Defeated"

def succeededLabel : String := "Succeeded"

def queuedLabel : String := "Queued"

def expiredLabel : String := "Expired"

def executedLabel : String := "Executed"

def unknownLabel : String := "Unknown"

/-- `ethers.ZeroAddress`, compared against the delegate in vote.js line 97. -/
def zeroAddress : String := "0x0000000000000000000000000000000000000000"

/-! ## STATES table and the proposal classifier -/

/-- The `STATES` object of scripts/vote.js lines 28-37 (identical in
check-proposals.js lines 23-32): a partial map from the chain-reported
numeric code to the phase name.  A key outside 0..7 is absent
(JavaScript property access yields `undefined`, here `none`). -/
def STATES (n : Nat) : Option String :=
  match n with
  | 0 => some pendingLabel
  | 1 => some activeLabel
  | 2 => some canceledLabel
  | 3 => some defeatedLabel
  | 4 => some succeededLabel
  | 5 => some queuedLabel
  | 6 => some expiredLabel
  | 7 => some executedLabel
  | _ => none

/-- `STATES[stateNum] || 'Unknown'` (vote.js line 113,
check-proposals.js line 76): missing keys fall back to the label
`'Unknown'`. -/
def stateName (n : Nat) : String :=
  (STATES n).getD unknownLabel

/-- Output of the proposal classifier: the phase label, and the
blocks-remaining figure which the scripts compute only for state code 1
(Active). -/
structure ClassifyResult where
  phase : String
  blocksRemaining : Option Int
deriving Repr, DecidableEq

/-- The proposal classifier, from check-proposals.js lines 75-76 and
113-119 (vote.js lines 112-113 and 134-137 are the same computation on
the Active path): the label is `STATES[stateNum] || 'Unknown'`, and
`blocksLeft = Number(prop.endBlock) - currentBlock` is computed only
inside `if (prop.stateNum === 1)`, with no clamping, so it can be
negative. -/
def classifyProposal (stateNum : Nat) (endBlock : Nat) (currentBlock : Nat) :
    ClassifyResult :=
  { phase := stateName stateNum
    blocksRemaining :=
      if stateNum = 1 then some ((endBlock : Int) - (currentBlock : Int))
      else none }

/-! ## JavaScript parseInt, as applied to the support argument -/

/-- Value of a hexadecimal digit character, `none` for non-digits. -/
def hexDigitVal (c : Char) : Option Nat :=
  if '0' ≤ c ∧ c ≤ '9' then some (c.toNat - Char.toNat '0')
  else if 'a' ≤ c ∧ c ≤ 'f' then some (c.toNat - Char.toNat 'a' + 10)
  else if 'A' ≤ c ∧ c ≤ 'F' then some (c.toNat - Char.toNat 'A' + 10)
  else none

/-- The white-space characters `parseInt` strips (ASCII subset of the
ECMAScript WhiteSpace/LineTerminator productions; the support argument of
the vote command is ASCII). -/
def isJsWhitespace (c : Char) : Bool :=
  c = ' ' ∨ c = '\t' ∨ c = '\n' ∨ c = '\r' ∨ c = '\x0b' ∨ c = '\x0c'

/-- Accumulate the longest prefix of radix-`radix` digits, left to right,
starting from `acc`; stops at the first non-digit. -/
def parseDigitsAux (radix : Nat) (acc : Nat) : List Char → Nat
  | [] => acc
  | c :: cs =>
    match hexDigitVal c with
    | some d => if d < radix then parseDigitsAux radix (acc * radix + d) cs else acc
    | none => acc

/-- Longest digit prefix in the given radix; `none` when the very first
character is not a digit (ECMAScript: empty digit sequence gives NaN). -/
def parseIntDigits (radix : Nat) : List Char → Option Nat
  | [] => none
  | c :: cs =>
    match hexDigitVal c with
    | some d => if d < radix then some (parseDigitsAux radix d cs) else none
    | none => none

/-- After the optional sign: a `0x`/`0X` prefix selects radix 16,
otherwise radix 10. -/
def parseIntAfterSign : List Char → Option Nat
  | '0' :: 'x' :: rest => parseIntDigits 16 rest
  | '0' :: 'X' :: rest => parseIntDigits 16 rest
  | cs => parseIntDigits 10 cs

/-- ECMAScript `parseInt(string)` with no radix argument, on the character
list: strip white space, read an optional sign, then the longest digit
prefix; `none` models NaN. -/
def parseIntCore (cs : List Char) : Option Int :=
  match cs.dropWhile isJsWhitespace with
  | '-' :: rest => (parseIntAfterSign rest).map (fun n => -(n : Int))
  | '+' :: rest => (parseIntAfterSign rest).map (fun n => (n : Int))
  | rest => (parseIntAfterSign rest).map (fun n => (n : Int))

/-- `parseInt(support)` of vote.js line 58. -/
def parseIntJS (s : String) : Option Int :=
  parseIntCore s.data

/-! ## The vote eligibility checker (scripts/vote.js main, lines 58-151) -/

/-- The hard-failure reasons of the checker, in the order the script tests
them (each is a `console.error` followed by `process.exit(1)`). -/
inductive VoteError where
  | InvalidSupportValue
  | NoVotingPower
  | ProposalNotActive
  | AlreadyVoted
deriving Repr, DecidableEq

/-- The advisory (non-exiting) delegation messages of vote.js lines
97-104. -/
inductive DelegationWarning where
  | NotDelegated
  | DelegatedToOther (delegate : String)
deriving Repr, DecidableEq

/-- JavaScript's `.toLowerCase()` as applied to hex address strings,
character by character. -/
def lowerStr (s : String) : String :=
  String.mk (s.data.map Char.toLower)

/-- The two `console.log` warnings of vote.js lines 96-104: delegate equal
to the zero address, else delegate different (case-insensitively) from the
voter.  Neither branch exits. -/
def delegationWarnings (voter delegate : String) : List DelegationWarning :=
  if delegate = zeroAddress then [DelegationWarning.NotDelegated]
  else if ¬ lowerStr delegate = lowerStr voter then
    [DelegationWarning.DelegatedToOther delegate]
  else []

/-- A successful eligibility check: the support code that will be passed
to `castVote`, and the advisory warnings printed on the way. -/
structure VoteOk where
  supportNum : Int
  warnings : List DelegationWarning
deriving Repr, DecidableEq

/-- Eligibility check of vote.js `main` from the parsed support value on:
line 59 `![0, 1, 2].includes(supportNum)`, line 90 `balance === 0n`,
lines 96-104 delegation advisories, line 121 `stateNum !== 1`, line 128
`hasVoted`; reaching line 144/148 submits the vote with `supportNum`.
`supportNum = none` models `parseInt` returning NaN (`includes(NaN)` is
false, so the support check fails). -/
def checkVoteNum (supportNum : Option Int) (balance : Nat)
    (voter delegate : String) (stateNum : Nat) (hasVoted : Bool) :
    Except VoteError VoteOk :=
  match supportNum with
  | none => Except.error VoteError.InvalidSupportValue
  | some n =>
    if n = 0 ∨ n = 1 ∨ n = 2 then
      if balance = 0 then Except.error VoteError.NoVotingPower
      else
        let warnings := delegationWarnings voter delegate
        if ¬ stateNum = 1 then Except.error VoteError.ProposalNotActive
        else if hasVoted then Except.error VoteError.AlreadyVoted
        else Except.ok { supportNum := n, warnings := warnings }
    else Except.error VoteError.InvalidSupportValue

/-- The checker on the raw command-line argument: vote.js line 58 parses
it with `parseInt` before the membership test. -/
def checkVote (support : String) (balance : Nat) (voter delegate : String)
    (stateNum : Nat) (hasVoted : Bool) : Except VoteError VoteOk :=
  checkVoteNum (parseIntJS support) balance voter delegate stateNum hasVoted

/-- The hard decision of a check result, with the advisory warnings
erased: `none` when the vote proceeds, `some e` when the script exits with
error `e`. -/
def decision (r : Except VoteError VoteOk) : Option VoteError :=
  match r with
  | Except.ok _ => none
  | Except.error e => some e

/-! ## The auction evaluator (spec-modelled) -/

/-- The auction snapshot fields the minimum-next-bid rule reads. -/
structure AuctionSnapshot where
  currentBid : Nat
  reservePrice : Nat
  incrementPct : Nat
deriving Repr, DecidableEq

/-- Modelled from the spec: the Auction Evaluator's `minNextBid` rule
(spec section 4.1).  The auction scripts `check-auction.js` and
`place-bid.js` are referenced by SKILL.md but are not among the repository
sources, so this definition follows the spec's words: with no bid yet
(`currentBid == 0`) the minimum is the reserve price; otherwise it is
`currentBid + ceil(currentBid * incrementPct / 100)` in exact integer
arithmetic, the ceiling written as `(a + 99) / 100` on naturals. -/
def minNextBid (s : AuctionSnapshot) : Nat :=
  if s.currentBid = 0 then s.reservePrice
  else s.currentBid + (s.currentBid * s.incrementPct + 99) / 100

/-! ## The proposal-listing loop (check-proposals.js main, lines 57-133) -/

/-- A row of the `proposals` tuple as far as the listing displays it. -/
structure ProposalRow where
  forVotes : Nat
  againstVotes : Nat
  abstainVotes : Nat
  startBlock : Nat
  endBlock : Nat
  canceled : Bool
  executed : Bool
deriving Repr, DecidableEq

/-- An entry pushed onto the `proposals` array (check-proposals.js lines
81-92), keeping the fields the later display and summary read. -/
structure ListedProposal where
  id : Nat
  state : String
  stateNum : Nat
  row : ProposalRow
deriving Repr, DecidableEq

/-- The body of the `for` loop of check-proposals.js lines 68-97 for index
`i`: the awaited fetch may throw (`none`), which the `catch` turns into
`continue`; a fetched proposal is skipped when not `--all` and its state
code is not 1; otherwise an entry is pushed. -/
def loopStep (showAll : Bool) (fetch : Nat → Option (ProposalRow × Nat))
    (i : Nat) : Option ListedProposal :=
  match fetch i with
  | none => none
  | some (row, state) =>
    let stateNum := state
    if ¬ showAll ∧ ¬ stateNum = 1 then none
    else some { id := i, state := stateName stateNum, stateNum := stateNum, row := row }

/-- The `proposals` array after the loop has run over indices `1..count`
(the governor is 1-indexed, check-proposals.js line 66-68). -/
def listProposals (showAll : Bool) (count : Nat)
    (fetch : Nat → Option (ProposalRow × Nat)) : List ListedProposal :=
  (List.range' 1 count).filterMap (loopStep showAll fetch)

/-- Everything an invocation of check-proposals.js `main` leaves behind:
the displayed entries, the three summary counters of lines 126-128, and
the process exit code. -/
structure CheckProposalsOutput where
  proposals : List ListedProposal
  active : Nat
  succeeded : Nat
  executed : Nat
  exitCode : Nat
deriving Repr, DecidableEq

/-- check-proposals.js `main`: `proposalCount()` itself may throw, which
the outer `catch` turns into exit code 1 (line 135-138); per-proposal
fetch failures never reach that handler.  The summary counts filter the
collected array by state code (lines 126-128).  Every other path ends the
process normally (exit code 0). -/
def runCheckProposals (showAll : Bool) (countResult : Option Nat)
    (fetch : Nat → Option (ProposalRow × Nat)) : CheckProposalsOutput :=
  match countResult with
  | none => { proposals := [], active := 0, succeeded := 0, executed := 0, exitCode := 1 }
  | some count =>
    let proposals := listProposals showAll count fetch
    { proposals := proposals
      active := (proposals.filter (fun p => p.stateNum = 1)).length
      succeeded := (proposals.filter (fun p => p.stateNum = 4)).length
      executed := (proposals.filter (fun p => p.stateNum = 7)).length
      exitCode := 0 }

/-! ## Concrete inputs used in witnesses -/

/-- The raw support argument string `"1.9"`. -/
def strOnePointNine : String := "1.9"

/-- The raw support argument string `"2x"`. -/
def strTwoX : String := "2x"

/-- A sample voter address (mixed case, not the zero address). -/
def voterAddr : String := "0xAbCd"

/-- A snapshot with no bid yet and the reserve price of the spec's
example, `8 * 10 ^ 14`. -/
def snapNoBid : AuctionSnapshot :=
  { currentBid := 0, reservePrice := 800000000000000, incrementPct := 37 }

/-- A snapshot with a current bid of 1000 and a 10 percent increment. -/
def snapBid1000 : AuctionSnapshot :=
  { currentBid := 1000, reservePrice := 800, incrementPct := 10 }

/-- A sample proposal row for the listing loop. -/
def sampleRow : ProposalRow :=
  { forVotes := 0, againstVotes := 0, abstainVotes := 0,
    startBlock := 0, endBlock := 100, canceled := false, executed := false }

/-- A sample fetch in which the chain call for proposal 2 throws and every
other index returns an Active proposal. -/
def sampleFetch : Nat → Option (ProposalRow × Nat) :=
  fun j => if j = 2 then none else some (sampleRow, 1)

/-! ## Helper lemmas for the listing loop -/

/-- An entry produced by the loop body carries the index it was produced
at, and only a successful fetch produces one. -/
lemma loopStep_id (showAll : Bool) (fetch : Nat → Option (ProposalRow × Nat))
    (i : Nat) (p : ListedProposal) (h : loopStep showAll fetch i = some p) :
    p.id = i := by
  unfold loopStep at h
  cases hf : fetch i with
  | none => rw [hf] at h; exact absurd h (by simp)
  | some pr =>
    obtain ⟨row, st⟩ := pr
    rw [hf] at h
    by_cases hc : ¬ showAll = true ∧ ¬ st = 1
    · simp [hc] at h
    · simp [hc] at h
      rw [← h.2]

/-- A failed fetch at `i` yields no loop entry. -/
lemma loopStep_none (showAll : Bool) (fetch : Nat → Option (ProposalRow × Nat))
    (i : Nat) (h : fetch i = none) : loopStep showAll fetch i = none := by
  unfold loopStep
  rw [h]

/-- Over any index list, the number of collected entries with state code 1
equals the number of indices whose fetch succeeded with state code 1:
Active proposals are always pushed (the `--all` filter only skips
non-Active codes), and a throwing fetch contributes nothing. -/
lemma active_countP (showAll : Bool) (fetch : Nat → Option (ProposalRow × Nat))
    (L : List Nat) :
    ((L.filterMap (loopStep showAll fetch)).filter
        (fun p => p.stateNum = 1)).length =
      L.countP (fun j => (fetch j).map Prod.snd = some 1) := by
  induction L with
  | nil => rfl
  | cons j L ih =>
    rw [List.filterMap_cons, List.countP_cons]
    cases hf : fetch j with
    | none => simp [loopStep, hf, ih]
    | some pr =>
      obtain ⟨row, st⟩ := pr
      by_cases hst : st = 1
      · subst hst
        simp [loopStep, hf, ih, List.filter_cons]
      · cases showAll with
        | false => simp [loopStep, hf, hst, ih]
        | true => simp [loopStep, hf, hst, ih, List.filter_cons]

/-! # Claims -/

/-- C1: the vote eligibility checker of scripts/vote.js applies its rules
in the fixed order support-value, balance, phase, already-voted; the first
failing rule determines the error, and the vote is submitted exactly when
all four pass. -/
theorem C1_vote_rule_order (supportNum : Option Int) (balance : Nat)
    (voter delegate : String) (stateNum : Nat) (hasVoted : Bool) :
    (checkVoteNum supportNum balance voter delegate stateNum hasVoted =
        Except.error VoteError.InvalidSupportValue ↔
      ¬ (supportNum = some 0 ∨ supportNum = some 1 ∨ supportNum = some 2)) ∧
    (checkVoteNum supportNum balance voter delegate stateNum hasVoted =
        Except.error VoteError.NoVotingPower ↔
      (supportNum = some 0 ∨ supportNum = some 1 ∨ supportNum = some 2) ∧
        balance = 0) ∧
    (checkVoteNum supportNum balance voter delegate stateNum hasVoted =
        Except.error VoteError.ProposalNotActive ↔
      (supportNum = some 0 ∨ supportNum = some 1 ∨ supportNum = some 2) ∧
        ¬ balance = 0 ∧ ¬ stateNum = 1) ∧
    (checkVoteNum supportNum balance voter delegate stateNum hasVoted =
        Except.error VoteError.AlreadyVoted ↔
      (supportNum = some 0 ∨ supportNum = some 1 ∨ supportNum = some 2) ∧
        ¬ balance = 0 ∧ stateNum = 1 ∧ hasVoted = true) ∧
    ((∃ ok, checkVoteNum supportNum balance voter delegate stateNum hasVoted =
        Except.ok ok) ↔
      (supportNum = some 0 ∨ supportNum = some 1 ∨ supportNum = some 2) ∧
        ¬ balance = 0 ∧ stateNum = 1 ∧ hasVoted = false) := by
  cases supportNum with
  | none => simp [checkVoteNum]
  | some n =>
    by_cases hv : n = 0 ∨ n = 1 ∨ n = 2
    · by_cases hb : balance = 0 <;> by_cases hs : stateNum = 1 <;>
        cases hasVoted <;> simp [checkVoteNum, hv, hb, hs]
    · simp [checkVoteNum, hv]

/-- C2 counterexample: with state code 1 (Active), `endBlock = 5` and
`currentBlock = 10`, the code yields `blocksRemaining = -5`, not
`max(0, endBlock - currentBlock) = 0` — the claimed clamping to zero does
not exist in the code. -/
theorem C2_counterexample :
    (classifyProposal 1 5 10).blocksRemaining = some (-5) ∧
    ¬ (classifyProposal 1 5 10).blocksRemaining =
        some (max 0 ((5 : Int) - (10 : Int))) := by
  decide

/-- C2 (amended): on an Active proposal the classifier's blocksRemaining
equals `endBlock - currentBlock` with no clamping, which coincides with
`max(0, endBlock - currentBlock)` whenever `currentBlock ≤ endBlock` but
is negative once the current block passes `endBlock`; for any non-Active
state code it is absent. -/
theorem C2_blocks_remaining (stateNum endBlock currentBlock : Nat) :
    (stateNum = 1 →
      (classifyProposal stateNum endBlock currentBlock).blocksRemaining =
        some ((endBlock : Int) - (currentBlock : Int))) ∧
    (stateNum = 1 → currentBlock ≤ endBlock →
      (classifyProposal stateNum endBlock currentBlock).blocksRemaining =
        some (max 0 ((endBlock : Int) - (currentBlock : Int)))) ∧
    (¬ stateNum = 1 →
      (classifyProposal stateNum endBlock currentBlock).blocksRemaining =
        none) := by
  refine ⟨fun h => by simp [classifyProposal, h], fun h hle => ?_, fun h => by
    simp [classifyProposal, h]⟩
  have h0 : (0 : Int) ≤ (endBlock : Int) - (currentBlock : Int) := by omega
  simp [classifyProposal, h, max_eq_right h0]

/-- C2 witness for the amended statement: an Active proposal 100 blocks
from its end yields 100; an Executed one yields none. -/
theorem C2_blocks_remaining_witness :
    (classifyProposal 1 110 10).blocksRemaining =
      some ((110 : Int) - (10 : Int)) ∧
    (classifyProposal 7 110 10).blocksRemaining = none :=
  ⟨(C2_blocks_remaining 1 110 10).1 rfl,
   (C2_blocks_remaining 7 110 10).2.2 (by decide)⟩

/-- C3 counterexample: at the out-of-range code 9 the classifier does not
fail — it substitutes the default label `'Unknown'` (via
`STATES[stateNum] || 'Unknown'`) and returns a normal result. -/
theorem C3_counterexample :
    STATES 9 = none ∧
    classifyProposal 9 100 50 =
      { phase := unknownLabel, blocksRemaining := none } := by
  decide

/-- C3 (amended): for every state code outside the recognized range 0..7
the `STATES` table has no entry and the classifier silently substitutes
the default label `'Unknown'` and continues; there is no UnknownPhase
failure. -/
theorem C3_unknown_default (stateNum endBlock currentBlock : Nat)
    (h : 8 ≤ stateNum) :
    STATES stateNum = none ∧
    (classifyProposal stateNum endBlock currentBlock).phase = unknownLabel := by
  rcases stateNum with _ | _ | _ | _ | _ | _ | _ | _ | n
  any_goals omega
  exact ⟨rfl, rfl⟩

/-- C3 witness: code 9 has no `STATES` entry and is labelled Unknown. -/
theorem C3_unknown_default_witness :
    STATES 9 = none ∧ (classifyProposal 9 100 50).phase = unknownLabel :=
  C3_unknown_default 9 100 50 (by decide)

/-- C4 counterexample: with balance 0 but an invalid support value 5, the
checker rejects with InvalidSupportValue, not NoVotingPower — the support
rule runs first. -/
theorem C4_counterexample :
    checkVoteNum (some 5) 0 zeroAddress zeroAddress 1 false =
      Except.error VoteError.InvalidSupportValue ∧
    ¬ checkVoteNum (some 5) 0 zeroAddress zeroAddress 1 false =
        Except.error VoteError.NoVotingPower := by
  constructor
  · rfl
  · intro h
    simp [checkVoteNum] at h

/-- C4 (amended): a voter with balance 0 and a valid support value in
{0,1,2} is rejected with NoVotingPower regardless of phase and has-voted
flag; and with balance 0 the checker never returns success whatever the
support value. -/
theorem C4_no_power (supportNum : Option Int) (voter delegate : String)
    (stateNum : Nat) (hasVoted : Bool) :
    ((supportNum = some 0 ∨ supportNum = some 1 ∨ supportNum = some 2) →
      checkVoteNum supportNum 0 voter delegate stateNum hasVoted =
        Except.error VoteError.NoVotingPower) ∧
    (∀ ok, ¬ checkVoteNum supportNum 0 voter delegate stateNum hasVoted =
        Except.ok ok) := by
  cases supportNum with
  | none => simp [checkVoteNum]
  | some n =>
    by_cases hv : n = 0 ∨ n = 1 ∨ n = 2
    · constructor
      · intro _; simp [checkVoteNum, hv]
      · intro ok; simp [checkVoteNum, hv]
    · constructor
      · intro hmem
        refine absurd ?_ hv
        rcases hmem with h | h | h
        · exact Or.inl (Option.some.inj h)
        · exact Or.inr (Or.inl (Option.some.inj h))
        · exact Or.inr (Or.inr (Option.some.inj h))
      · intro ok; simp [checkVoteNum, hv]

/-- C4 witness: balance 0, support 1, Active, not yet voted is rejected
with NoVotingPower and is not a success. -/
theorem C4_no_power_witness :
    checkVoteNum (some 1) 0 zeroAddress zeroAddress 1 false =
      Except.error VoteError.NoVotingPower ∧
    ¬ checkVoteNum (some 1) 0 zeroAddress zeroAddress 1 false =
        Except.ok { supportNum := 1, warnings := [] } :=
  ⟨(C4_no_power (some 1) zeroAddress zeroAddress 1 false).1
      (Or.inr (Or.inl rfl)),
   (C4_no_power (some 1) zeroAddress zeroAddress 1 false).2
      { supportNum := 1, warnings := [] }⟩

/-- C5: the delegate address never changes the checker's hard decision
(pass/fail and which error), and whenever the four hard rules pass the
checker returns success carrying the delegation advisories as warnings —
a delegation mismatch is non-blocking. -/
theorem C5_delegation_advisory (supportNum : Option Int) (balance : Nat)
    (voter delegate other : String) (stateNum : Nat) (hasVoted : Bool) :
    decision (checkVoteNum supportNum balance voter delegate stateNum hasVoted) =
      decision (checkVoteNum supportNum balance voter other stateNum hasVoted) ∧
    (∀ n : Int, (n = 0 ∨ n = 1 ∨ n = 2) → ¬ balance = 0 → stateNum = 1 →
      hasVoted = false →
      checkVoteNum (some n) balance voter delegate stateNum hasVoted =
        Except.ok { supportNum := n,
                    warnings := delegationWarnings voter delegate }) := by
  constructor
  · cases supportNum with
    | none => rfl
    | some n =>
      by_cases hv : n = 0 ∨ n = 1 ∨ n = 2
      · by_cases hb : balance = 0 <;> by_cases hs : stateNum = 1 <;>
          cases hasVoted <;> simp [checkVoteNum, decision, hv, hb, hs]
      · simp [checkVoteNum, hv]
  · intro n hv hb hs hh
    simp [checkVoteNum, hv, hb, hs, hh]

/-- C5 witness: an undelegated voter (delegate is the zero address) who
passes the four hard rules still gets a success, with the advisory
attached. -/
theorem C5_delegation_advisory_witness :
    checkVoteNum (some 2) 3 voterAddr zeroAddress 1 false =
      Except.ok { supportNum := 2,
                  warnings := delegationWarnings voterAddr zeroAddress } :=
  (C5_delegation_advisory (some 2) 3 voterAddr zeroAddress zeroAddress 1
      false).2 2 (Or.inr (Or.inr rfl)) (by decide) rfl rfl

/-- C6: the classifier maps each state code 0..7 to exactly the
enumeration name at that position, for every block pair. -/
theorem C6_states_mapping (endBlock currentBlock : Nat) :
    (classifyProposal 0 endBlock currentBlock).phase = pendingLabel ∧
    (classifyProposal 1 endBlock currentBlock).phase = activeLabel ∧
    (classifyProposal 2 endBlock currentBlock).phase = canceledLabel ∧
    (classifyProposal 3 endBlock currentBlock).phase = defeatedLabel ∧
    (classifyProposal 4 endBlock currentBlock).phase = succeededLabel ∧
    (classifyProposal 5 endBlock currentBlock).phase = queuedLabel ∧
    (classifyProposal 6 endBlock currentBlock).phase = expiredLabel ∧
    (classifyProposal 7 endBlock currentBlock).phase = executedLabel :=
  ⟨rfl, rfl, rfl, rfl, rfl, rfl, rfl, rfl⟩

/-- C7: the classifier is a pure function of its three inputs — two calls
on identical inputs give identical outputs. -/
theorem C7_classifier_pure (s₁ s₂ e₁ e₂ c₁ c₂ : Nat)
    (hs : s₁ = s₂) (he : e₁ = e₂) (hc : c₁ = c₂) :
    classifyProposal s₁ e₁ c₁ = classifyProposal s₂ e₂ c₂ := by
  rw [hs, he, hc]

/-- C7 witness: the classifier at a concrete repeated input. -/
theorem C7_classifier_pure_witness :
    classifyProposal 1 110 10 = classifyProposal 1 110 10 :=
  C7_classifier_pure 1 1 110 110 10 10 rfl rfl rfl

/-- C8: with no bid yet the minimum next bid is the reserve price
whatever the increment percentage; otherwise it exceeds the current bid
by exactly the ceiling of `currentBid * incrementPct / 100` — the excess
`k = minNextBid - currentBid` is the unique integer with
`currentBid * incrementPct ≤ 100 * k < currentBid * incrementPct + 100`. -/
theorem C8_min_next_bid (s : AuctionSnapshot) :
    (s.currentBid = 0 → minNextBid s = s.reservePrice) ∧
    (¬ s.currentBid = 0 →
      s.currentBid ≤ minNextBid s ∧
      s.currentBid * s.incrementPct ≤ 100 * (minNextBid s - s.currentBid) ∧
      100 * (minNextBid s - s.currentBid) <
        s.currentBid * s.incrementPct + 100) := by
  constructor
  · intro h; simp [minNextBid, h]
  · intro h
    simp only [minNextBid, if_neg h]
    omega

/-- C8 witness: `currentBid = 0` gives the reserve price `8 * 10 ^ 14`;
`currentBid = 1000`, `incrementPct = 10` gives an excess of at least
`10000 / 100 = 100`. -/
theorem C8_min_next_bid_witness :
    minNextBid snapNoBid = 800000000000000 ∧
    1000 * 10 ≤ 100 * (minNextBid snapBid1000 - 1000) :=
  ⟨(C8_min_next_bid snapNoBid).1 rfl,
   ((C8_min_next_bid snapBid1000).2 (by decide)).2.1⟩

/-- C9: the support argument passes the first rule exactly when
JavaScript `parseInt` of the raw string yields 0, 1 or 2; in particular
the strings `"1.9"` and `"2x"` are accepted and the vote is cast with the
truncated values 1 and 2. -/
theorem C9_parse_int_support :
    (∀ (support voter delegate : String) (balance stateNum : Nat)
        (hasVoted : Bool),
      ¬ checkVote support balance voter delegate stateNum hasVoted =
          Except.error VoteError.InvalidSupportValue ↔
        (parseIntJS support = some 0 ∨ parseIntJS support = some 1 ∨
          parseIntJS support = some 2)) ∧
    parseIntJS strOnePointNine = some 1 ∧
    parseIntJS strTwoX = some 2 ∧
    checkVote strOnePointNine 3 voterAddr voterAddr 1 false =
      Except.ok { supportNum := 1, warnings := [] } ∧
    checkVote strTwoX 3 voterAddr voterAddr 1 false =
      Except.ok { supportNum := 2, warnings := [] } := by
  refine ⟨?_, by decide, by decide, by rfl, by rfl⟩
  intro support voter delegate balance stateNum hasVoted
  cases hp : parseIntJS support with
  | none => simp [checkVote, checkVoteNum, hp]
  | some n =>
    by_cases hv : n = 0 ∨ n = 1 ∨ n = 2
    · by_cases hb : balance = 0 <;> by_cases hs : stateNum = 1 <;>
        cases hasVoted <;> simp [checkVote, checkVoteNum, hp, hv, hb, hs]
    · simp [checkVote, checkVoteNum, hp, hv]

/-- C10: when the per-proposal fetch for index `i` throws, the listing
exits successfully (code 0), no displayed entry has id `i`, every other
successfully fetched index that passes the display filter still produces
its entry, and the Active summary counter counts exactly the indices
whose fetch succeeded with state code 1 — so the failing index is absent
from both the list and the counts. -/
theorem C10_skip_failed_fetch (showAll : Bool) (count : Nat)
    (fetch : Nat → Option (ProposalRow × Nat)) (i : Nat)
    (hi : fetch i = none) :
    (runCheckProposals showAll (some count) fetch).exitCode = 0 ∧
    (∀ p, p ∈ (runCheckProposals showAll (some count) fetch).proposals →
      ¬ p.id = i) ∧
    (∀ j row st, j ∈ List.range' 1 count → fetch j = some (row, st) →
      (showAll = true ∨ st = 1) →
      ({ id := j, state := stateName st, stateNum := st, row := row } :
          ListedProposal) ∈
        (runCheckProposals showAll (some count) fetch).proposals) ∧
    (runCheckProposals showAll (some count) fetch).active =
      (List.range' 1 count).countP
        (fun j => (fetch j).map Prod.snd = some 1) := by
  refine ⟨rfl, ?_, ?_, ?_⟩
  · intro p hp hid
    obtain ⟨j, hj, hstep⟩ := List.mem_filterMap.mp hp
    have hji : j = i := by rw [← hid, loopStep_id showAll fetch j p hstep]
    rw [hji, loopStep_none showAll fetch i hi] at hstep
    exact absurd hstep (by simp)
  · intro j row st hj hf hok
    have hc : ¬ (¬ showAll = true ∧ ¬ st = 1) := by
      rcases hok with h | h
      · simp [h]
      · simp [h]
    have hstep : loopStep showAll fetch j =
        some { id := j, state := stateName st, stateNum := st, row := row } := by
      unfold loopStep
      rw [hf]
      exact if_neg hc
    exact List.mem_filterMap.mpr ⟨j, hj, hstep⟩
  · exact active_countP showAll fetch (List.range' 1 count)

/-- C10 witness: with proposals 1 and 3 Active and the fetch for 2
throwing, the run exits with code 0 and proposal 3 is still listed. -/
theorem C10_skip_failed_fetch_witness :
    (runCheckProposals true (some 3) sampleFetch).exitCode = 0 ∧
    ({ id := 3, state := stateName 1, stateNum := 1, row := sampleRow } :
        ListedProposal) ∈
      (runCheckProposals true (some 3) sampleFetch).proposals :=
  ⟨(C10_skip_failed_fetch true 3 sampleFetch 2 rfl).1,
   (C10_skip_failed_fetch true 3 sampleFetch 2 rfl).2.2.1 3 sampleRow 1
      (by decide) rfl (Or.inl rfl)⟩

end BasedDao
